import Mathlib

/-!
Verification development for the classiq-library repository.

The repository consists of a GitHub Actions workflow
(.github/workflows/Notification-developers-onboarding.yml), a pre-commit
configuration (.pre-commit-config.yaml) and a corpus of Qmod model files.
This file gives a shallow embedding of those artifacts and proves the
specification claims about them.
-/

/- ===============================================================
   Part 1: the GitHub Actions workflow
   .github/workflows/Notification-developers-onboarding.yml
   =============================================================== -/

/-- `github.event.pull_request` fields used by the workflow. -/
structure PullRequestInfo where
  number : Nat
  merged : Bool
  authorLogin : String
deriving DecidableEq

/-- `github.event.repository` fields used by the workflow. -/
structure RepositoryInfo where
  name : String
  ownerLogin : String
deriving DecidableEq

/-- A `pull_request_target` webhook event as delivered to the workflow. -/
structure WebhookEvent where
  action : String
  pullRequest : PullRequestInfo
  repository : RepositoryInfo
deriving DecidableEq

/-- One item of the `issuesAndPullRequests` search response; the script only
reads `pr.pull_request.merged_at`, which is null for closed-unmerged PRs. -/
structure SearchItem where
  mergedAt : Option String
deriving DecidableEq

/-- Observable actions performed by the two github-script steps. -/
inductive Effect where
  | searchIssuesAndPullRequests (q : String) (perPage : Nat)
  | exportVariable (name value : String)
  | setFailed (msg : String)
  | createComment (owner repo : String) (issueNumber : Nat) (body : String)
deriving DecidableEq

/-- The GitHub REST API, abstracted as an oracle: each endpoint either
returns data or throws an error carrying a message. -/
structure GitHubApi where
  searchResult : String → Nat → Except String (List SearchItem)
  createCommentResult : String → String → Nat → String → Except String Unit

/-- Lookup in the `$GITHUB_ENV` environment (process.env): absent keys read
as JavaScript `undefined`. -/
def envLookup (env : List (String × String)) (k : String) : Option String :=
  (env.find? (fun p => p.1 == k)).map (fun p => p.2)

/-- A `process.env.X` value interpolated into a template literal:
JavaScript prints `undefined` as the string "undefined". -/
def envTemplate (env : List (String × String)) (k : String) : String :=
  (envLookup env k).getD "undefined"

/-- Step "Set Environment Variables": writes AUTHOR, REPO, OWNER from the
event into `$GITHUB_ENV`. -/
def setEnvStep (e : WebhookEvent) : List (String × String) :=
  [("AUTHOR", e.pullRequest.authorLogin),
   ("REPO", e.repository.name),
   ("OWNER", e.repository.ownerLogin)]

/-- The search query string built by the Count Merged Pull Requests step:
  q: repo:OWNER/REPO type:pr state:closed author:AUTHOR   -/
def searchQuery (env : List (String × String)) : String :=
  "repo:" ++ envTemplate env "OWNER" ++ "/" ++ envTemplate env "REPO" ++
    " type:pr state:closed author:" ++ envTemplate env "AUTHOR"

/-- Result of running one workflow step: the effects it performed, the
environment afterwards, and whether the step succeeded (core.setFailed
marks the step as failed, so later steps do not run). -/
structure StepResult where
  trace : List Effect
  env : List (String × String)
  ok : Bool

/-- Step "Count Merged Pull Requests" (github-script): searches closed PRs
by the author in the repository, filters the items whose
`pull_request.merged_at` is set, and exports the count as PR_COUNT.
The whole body is a try/catch; a thrown error leads to a single
core.setFailed call and nothing else. -/
def countMergedPullRequestsStep (env : List (String × String))
    (api : GitHubApi) : StepResult :=
  let q := searchQuery env
  match api.searchResult q 1000 with
  | .ok data =>
      let prCount := (data.filter (fun pr => pr.mergedAt.isSome)).length
      { trace := [.searchIssuesAndPullRequests q 1000,
                  .exportVariable "PR_COUNT" (toString prCount)],
        env := env ++ [("PR_COUNT", toString prCount)],
        ok := true }
  | .error msg =>
      { trace := [.searchIssuesAndPullRequests q 1000,
                  .setFailed ("Error counting merged pull requests: " ++ msg)],
        env := env,
        ok := false }

/-- JavaScript `parseInt` on a decimal string: skip whitespace, optional
sign, then the longest digit run; NaN (here: none) when no digits. -/
def parseIntDigits (cs : List Char) : Option Nat :=
  let ds := cs.takeWhile (fun c => c.isDigit)
  if ds.isEmpty then none
  else some (ds.foldl (fun acc c => acc * 10 + (c.toNat - 48)) 0)

/-- JavaScript `parseInt(process.env.PR_COUNT)`; the argument is undefined
when the counting step exported nothing, and parseInt then yields NaN.
NaN is modelled as `none`. -/
def parseIntJS : Option String → Option Int
  | none => none
  | some s =>
    match s.data.dropWhile (fun c => c.isWhitespace) with
    | '-' :: rest => (parseIntDigits rest).map (fun n => -(n : Int))
    | '+' :: rest => (parseIntDigits rest).map (fun n => (n : Int))
    | rest => (parseIntDigits rest).map (fun n => (n : Int))

/-- JavaScript number-to-string coercion for the values reachable here. -/
def jsNumToString : Option Int → String
  | none => "NaN"
  | some n => toString n

/-- JavaScript strict equality `count === lit` for a numeric literal:
NaN is equal to nothing. This is the semantics of a `switch` case label. -/
def jsEqNum : Option Int → Int → Bool
  | none, _ => false
  | some n, lit => n == lit

/-- JavaScript `count > lit`: any comparison with NaN is false. -/
def jsGtNum : Option Int → Int → Bool
  | none, _ => false
  | some n, lit => lit < n

/-- The emoji array of getRandomEmoji. -/
def emojis : List String :=
  ["🎉", "🚀", "💪", "🌟", "🏆", "🎊", "🔥", "👏", "🌈", "🚂"]

/-- getRandomEmoji: Math.floor(Math.random() * emojis.length) is a uniform
index in 0..9; the randomness is modelled as an explicit index. -/
def getRandomEmoji (rand : Fin 10) : String :=
  emojis.get (Fin.cast (show 10 = emojis.length from rfl) rand)

/-- getMessage, case 1. -/
def msgCase1 (emoji author repo : String) : String :=
  emoji ++ " **Fantastic work @" ++ author ++ "!** Your very first PR to " ++ repo ++
    " has been merged! 🎉🥳\n\n" ++
    "If you\x27re feeling adventurous, why not dive into another issue and keep contributing? The Classiq community would love to see more from you! 🚀\n\n" ++
    "Happy coding! 👩‍💻👨‍💻"

/-- getMessage, case 2. -/
def msgCase2 (emoji author _repo : String) : String :=
  emoji ++ " **Well done @" ++ author ++ "!** Two PRs merged already! 🎉🥳\n\n" ++
    "With your second PR, you\x27re on a roll, and your contributions are already making a difference. 🌟\n" ++
    "Looking forward to seeing even more contributions from you. Keep up the great work! 🚀"

/-- getMessage, case 3. -/
def msgCase3 (emoji author _repo : String) : String :=
  emoji ++ " **You\x27re on fire, @" ++ author ++ "!** Three PRs merged and counting! 🔥🎉\n\n" ++
    "Your consistent contributions are truly impressive. You\x27re becoming a valued member of our community! 💖\n" ++
    "Have you considered taking on some more challenging issues? We\x27d love to see what you can do! 💪\n\n"

/-- getMessage, case 5. -/
def msgCase5 (emoji author repo : String) : String :=
  emoji ++ " **High five, @" ++ author ++ "!** You\x27ve hit the incredible milestone of 5 merged PRs! 🖐️✨\n\n" ++
    "Your dedication to " ++ repo ++ " is outstanding. You\x27re not just contributing code; you\x27re shaping the future of quantum computing! 🌠\n" ++
    "We\x27d love to hear your thoughts on the project. Any ideas for new features or improvements? 🤔\n\n" ++
    "You\x27re a superstar! 🌟"

/-- getMessage, case 10. -/
def msgCase10 (emoji author repo : String) : String :=
  emoji ++ " **Double digits, @" ++ author ++ "!** 10 merged PRs is a massive achievement! 🏆🎊\n\n" ++
    "Your impact on " ++ repo ++ " is undeniable. You\x27ve become a pillar of our community! 🏛️\n" ++
    "You\x27re a quantum hero! 🦸‍♀️🦸‍♂️"

/-- getMessage, default branch when count > 10; countStr is the template
interpolation of the numeric count. -/
def msgOver10 (emoji author repo countStr : String) : String :=
  emoji ++ " **Incredible, @" ++ author ++ "!** You\x27ve merged your " ++ countStr ++ "th PR! 🎯🎊\n\n" ++
    "Your ongoing commitment to " ++ repo ++ " is truly remarkable. You\x27re a driving force in our community! 🚀\n" ++
    "Your contributions are helping to shape the future of quantum computing! What exciting features or improvements do you envision next? 🔮\n\n" ++
    "We are grateful for your dedication! 💫"

/-- getMessage, default branch otherwise (the generic congratulation). -/
def msgDefault (emoji author repo countStr : String) : String :=
  emoji ++ " **Great job, @" ++ author ++ "!** You\x27ve merged your " ++ countStr ++ "th PR! 🎊\n\n" ++
    "Your contributions to " ++ repo ++ " are making a real difference. Keep up the fantastic work! 💪\n" ++
    "Remember, every PR counts and helps improve the project. What will you tackle next? 🤔\n\n"

/-- The getMessage function of the Comment step.  The JavaScript `switch`
compares `count` to the literal case labels with strict equality (so NaN
falls through to default), and in the default branch `count > 10` chooses
between the over-10 message and the generic one (false for NaN). -/
def getMessage (rand : Fin 10) (author repo : String) (count : Option Int) : String :=
  let emoji := getRandomEmoji rand
  if jsEqNum count 1 then msgCase1 emoji author repo
  else if jsEqNum count 2 then msgCase2 emoji author repo
  else if jsEqNum count 3 then msgCase3 emoji author repo
  else if jsEqNum count 5 then msgCase5 emoji author repo
  else if jsEqNum count 10 then msgCase10 emoji author repo
  else if jsGtNum count 10 then msgOver10 emoji author repo (jsNumToString count)
  else msgDefault emoji author repo (jsNumToString count)

/-- Step "Comment on the Merged Pull Request" (github-script): parses
PR_COUNT, builds the message (the `mention` constant in the script is
declared and never used), and posts it as a comment on
`context.payload.pull_request.number`.  The body is wrapped in try/catch;
a thrown error leads to a single core.setFailed call and nothing else. -/
def commentOnMergedPullRequestStep (env : List (String × String))
    (ctxPrNumber : Nat) (rand : Fin 10) (api : GitHubApi) : StepResult :=
  let prCount := parseIntJS (envLookup env "PR_COUNT")
  let author := envTemplate env "AUTHOR"
  let repo := envTemplate env "REPO"
  let owner := envTemplate env "OWNER"
  let message := getMessage rand author repo prCount
  match api.createCommentResult owner repo ctxPrNumber message with
  | .ok _ =>
      { trace := [.createComment owner repo ctxPrNumber message],
        env := env, ok := true }
  | .error msg =>
      { trace := [.createComment owner repo ctxPrNumber message,
                  .setFailed ("Error creating comment: " ++ msg)],
        env := env, ok := false }

/-- The job comment_on_merged_pull_request: checkout (no API effect), the
environment step, then the two script steps in order.  When a step fails
via core.setFailed, the following steps of the job do not run. -/
def commentJob (e : WebhookEvent) (rand : Fin 10) (api : GitHubApi) :
    List Effect :=
  let env0 := setEnvStep e
  let r1 := countMergedPullRequestsStep env0 api
  if r1.ok then
    r1.trace ++ (commentOnMergedPullRequestStep r1.env e.pullRequest.number rand api).trace
  else
    r1.trace

/-- The whole workflow: it is delivered only pull_request_target events of
type closed, and the single job carries the guard
`if: github.event.pull_request.merged == true`. -/
def runWorkflow (e : WebhookEvent) (rand : Fin 10) (api : GitHubApi) :
    List Effect :=
  if e.action == "closed" && e.pullRequest.merged then commentJob e rand api
  else []

/-- The workflow-level permissions block. -/
def workflowPermissions : List (String × String) :=
  [("pull-requests", "write")]

/-- Which effects are GitHub REST API calls (as opposed to runner-local
actions such as exporting a variable or marking the step failed). -/
def Effect.isApiCall : Effect → Bool
  | .searchIssuesAndPullRequests _ _ => true
  | .createComment _ _ _ _ => true
  | _ => false

/-- Which effects mutate externally visible state: creating a comment is a
POST; the search endpoint is a read-only GET, and exportVariable /
setFailed only change runner-local state. -/
def Effect.isExternalMutation : Effect → Bool
  | .createComment _ _ _ _ => true
  | _ => false

/-- Which effects are createComment calls. -/
def Effect.isCreateComment : Effect → Bool
  | .createComment _ _ _ _ => true
  | _ => false

/-- The comment body mentions a user by login: it contains the substring
"@" followed by the login. -/
def mentionsAuthor (body author : String) : Prop :=
  ∃ p q, body = p ++ ("@" ++ author) ++ q

theorem msgCase1_mentions (emoji author repo : String) :
    mentionsAuthor (msgCase1 emoji author repo) author := by
  refine ⟨emoji ++ " **Fantastic work ",
    "!** Your very first PR to " ++ repo ++ " has been merged! 🎉🥳\n\n" ++
      "If you\x27re feeling adventurous, why not dive into another issue and keep contributing? The Classiq community would love to see more from you! 🚀\n\n" ++
      "Happy coding! 👩‍💻👨‍💻", ?_⟩
  unfold msgCase1
  rw [show (" **Fantastic work @" : String) = " **Fantastic work " ++ "@" from rfl]
  simp only [String.append_assoc]

theorem msgCase2_mentions (emoji author repo : String) :
    mentionsAuthor (msgCase2 emoji author repo) author := by
  refine ⟨emoji ++ " **Well done ",
    "!** Two PRs merged already! 🎉🥳\n\n" ++
      "With your second PR, you\x27re on a roll, and your contributions are already making a difference. 🌟\n" ++
      "Looking forward to seeing even more contributions from you. Keep up the great work! 🚀", ?_⟩
  unfold msgCase2
  rw [show (" **Well done @" : String) = " **Well done " ++ "@" from rfl]
  simp only [String.append_assoc]

theorem msgCase3_mentions (emoji author repo : String) :
    mentionsAuthor (msgCase3 emoji author repo) author := by
  refine ⟨emoji ++ " **You\x27re on fire, ",
    "!** Three PRs merged and counting! 🔥🎉\n\n" ++
      "Your consistent contributions are truly impressive. You\x27re becoming a valued member of our community! 💖\n" ++
      "Have you considered taking on some more challenging issues? We\x27d love to see what you can do! 💪\n\n", ?_⟩
  unfold msgCase3
  rw [show (" **You\x27re on fire, @" : String) = " **You\x27re on fire, " ++ "@" from rfl]
  simp only [String.append_assoc]

theorem msgCase5_mentions (emoji author repo : String) :
    mentionsAuthor (msgCase5 emoji author repo) author := by
  refine ⟨emoji ++ " **High five, ",
    "!** You\x27ve hit the incredible milestone of 5 merged PRs! 🖐️✨\n\n" ++
      "Your dedication to " ++ repo ++ " is outstanding. You\x27re not just contributing code; you\x27re shaping the future of quantum computing! 🌠\n" ++
      "We\x27d love to hear your thoughts on the project. Any ideas for new features or improvements? 🤔\n\n" ++
      "You\x27re a superstar! 🌟", ?_⟩
  unfold msgCase5
  rw [show (" **High five, @" : String) = " **High five, " ++ "@" from rfl]
  simp only [String.append_assoc]

theorem msgCase10_mentions (emoji author repo : String) :
    mentionsAuthor (msgCase10 emoji author repo) author := by
  refine ⟨emoji ++ " **Double digits, ",
    "!** 10 merged PRs is a massive achievement! 🏆🎊\n\n" ++
      "Your impact on " ++ repo ++ " is undeniable. You\x27ve become a pillar of our community! 🏛️\n" ++
      "You\x27re a quantum hero! 🦸‍♀️🦸‍♂️", ?_⟩
  unfold msgCase10
  rw [show (" **Double digits, @" : String) = " **Double digits, " ++ "@" from rfl]
  simp only [String.append_assoc]

theorem msgOver10_mentions (emoji author repo countStr : String) :
    mentionsAuthor (msgOver10 emoji author repo countStr) author := by
  refine ⟨emoji ++ " **Incredible, ",
    "!** You\x27ve merged your " ++ countStr ++ "th PR! 🎯🎊\n\n" ++
      "Your ongoing commitment to " ++ repo ++ " is truly remarkable. You\x27re a driving force in our community! 🚀\n" ++
      "Your contributions are helping to shape the future of quantum computing! What exciting features or improvements do you envision next? 🔮\n\n" ++
      "We are grateful for your dedication! 💫", ?_⟩
  unfold msgOver10
  rw [show (" **Incredible, @" : String) = " **Incredible, " ++ "@" from rfl]
  simp only [String.append_assoc]

theorem msgDefault_mentions (emoji author repo countStr : String) :
    mentionsAuthor (msgDefault emoji author repo countStr) author := by
  refine ⟨emoji ++ " **Great job, ",
    "!** You\x27ve merged your " ++ countStr ++ "th PR! 🎊\n\n" ++
      "Your contributions to " ++ repo ++ " are making a real difference. Keep up the fantastic work! 💪\n" ++
      "Remember, every PR counts and helps improve the project. What will you tackle next? 🤔\n\n", ?_⟩
  unfold msgDefault
  rw [show (" **Great job, @" : String) = " **Great job, " ++ "@" from rfl]
  simp only [String.append_assoc]

theorem getMessage_mentions (rand : Fin 10) (author repo : String)
    (count : Option Int) :
    mentionsAuthor (getMessage rand author repo count) author := by
  unfold getMessage
  split
  · exact msgCase1_mentions _ _ _
  split
  · exact msgCase2_mentions _ _ _
  split
  · exact msgCase3_mentions _ _ _
  split
  · exact msgCase5_mentions _ _ _
  split
  · exact msgCase10_mentions _ _ _
  split
  · exact msgOver10_mentions _ _ _ _
  · exact msgDefault_mentions _ _ _ _

/-- C1: for every pull_request_target closed event it processes, the
Count Merged Pull Requests step computes the contributor's merged-PR count
via the search API: the search query asks for closed PRs authored by the
event's author in the event's repository, and the exported PR_COUNT equals
the number of returned items whose pull_request.merged_at field is set. -/
theorem claim_C1_count_step_exports_merged_count
    (e : WebhookEvent) (api : GitHubApi) (items : List SearchItem)
    (h : api.searchResult (searchQuery (setEnvStep e)) 1000 = .ok items) :
    searchQuery (setEnvStep e) =
      "repo:" ++ e.repository.ownerLogin ++ "/" ++ e.repository.name ++
        " type:pr state:closed author:" ++ e.pullRequest.authorLogin ∧
    envLookup (countMergedPullRequestsStep (setEnvStep e) api).env "PR_COUNT" =
      some (toString (items.filter (fun pr => pr.mergedAt.isSome)).length) ∧
    (countMergedPullRequestsStep (setEnvStep e) api).trace =
      [.searchIssuesAndPullRequests (searchQuery (setEnvStep e)) 1000,
       .exportVariable "PR_COUNT"
         (toString (items.filter (fun pr => pr.mergedAt.isSome)).length)] := by
  simp only [countMergedPullRequestsStep]
  rw [h]
  exact ⟨rfl, rfl, rfl⟩

/-- Concrete search response used to witness C1: two of the three returned
closed PRs have merged_at set. -/
def sampleItemsC1 : List SearchItem := [⟨some "2024-01-01"⟩, ⟨none⟩, ⟨some "2024-02-03"⟩]

/-- Concrete event used to witness the workflow claims. -/
def sampleEventC1 : WebhookEvent :=
  ⟨"closed", ⟨7, true, "alice"⟩, ⟨"classiq-library", "Classiq"⟩⟩

/-- An API oracle whose search succeeds with sampleItemsC1. -/
def sampleApiC1 : GitHubApi :=
  ⟨fun _ _ => .ok sampleItemsC1, fun _ _ _ _ => .ok ()⟩

theorem claim_C1_witness :
    sampleApiC1.searchResult (searchQuery (setEnvStep sampleEventC1)) 1000 =
      .ok sampleItemsC1 ∧
    envLookup (countMergedPullRequestsStep (setEnvStep sampleEventC1) sampleApiC1).env
      "PR_COUNT" = some "2" := by
  have h := claim_C1_count_step_exports_merged_count sampleEventC1 sampleApiC1
    sampleItemsC1 rfl
  exact ⟨rfl, h.2.1⟩

/-- C4: each github-script step wraps its whole body in try/catch; when the
API call throws, the step performs exactly that one API call, reports the
failure through core.setFailed with a message containing the error's
message, and performs no retry and no further API call. -/
theorem claim_C4_steps_catch_and_set_failed
    (env : List (String × String)) (pn : Nat) (rand : Fin 10)
    (api : GitHubApi) (m1 m2 : String)
    (h1 : api.searchResult (searchQuery env) 1000 = .error m1)
    (h2 : api.createCommentResult (envTemplate env "OWNER")
            (envTemplate env "REPO") pn
            (getMessage rand (envTemplate env "AUTHOR") (envTemplate env "REPO")
              (parseIntJS (envLookup env "PR_COUNT"))) = .error m2) :
    (countMergedPullRequestsStep env api).trace =
      [.searchIssuesAndPullRequests (searchQuery env) 1000,
       .setFailed ("Error counting merged pull requests: " ++ m1)] ∧
    (commentOnMergedPullRequestStep env pn rand api).trace =
      [.createComment (envTemplate env "OWNER") (envTemplate env "REPO") pn
         (getMessage rand (envTemplate env "AUTHOR") (envTemplate env "REPO")
           (parseIntJS (envLookup env "PR_COUNT"))),
       .setFailed ("Error creating comment: " ++ m2)] ∧
    ((countMergedPullRequestsStep env api).trace.filter Effect.isApiCall).length = 1 ∧
    ((commentOnMergedPullRequestStep env pn rand api).trace.filter Effect.isApiCall).length = 1 ∧
    (countMergedPullRequestsStep env api).ok = false ∧
    (commentOnMergedPullRequestStep env pn rand api).ok = false := by
  have hs1 : countMergedPullRequestsStep env api =
      { trace := [.searchIssuesAndPullRequests (searchQuery env) 1000,
                  .setFailed ("Error counting merged pull requests: " ++ m1)],
        env := env, ok := false } := by
    simp only [countMergedPullRequestsStep]
    rw [h1]
  have hs2 : commentOnMergedPullRequestStep env pn rand api =
      { trace := [.createComment (envTemplate env "OWNER") (envTemplate env "REPO") pn
                    (getMessage rand (envTemplate env "AUTHOR") (envTemplate env "REPO")
                      (parseIntJS (envLookup env "PR_COUNT"))),
                  .setFailed ("Error creating comment: " ++ m2)],
        env := env, ok := false } := by
    simp only [commentOnMergedPullRequestStep]
    rw [h2]
  refine ⟨by rw [hs1], by rw [hs2], ?_, ?_, by rw [hs1], by rw [hs2]⟩
  · rw [hs1]; simp [Effect.isApiCall]
  · rw [hs2]; simp [Effect.isApiCall]

/-- An API oracle that throws on both endpoints, to witness C4. -/
def failingApi : GitHubApi :=
  ⟨fun _ _ => .error "API rate limit exceeded",
   fun _ _ _ _ => .error "Resource not accessible"⟩

theorem claim_C4_witness :
    (countMergedPullRequestsStep [] failingApi).trace =
      [.searchIssuesAndPullRequests (searchQuery []) 1000,
       .setFailed ("Error counting merged pull requests: " ++ "API rate limit exceeded")] ∧
    (commentOnMergedPullRequestStep [] 7 ⟨0, by decide⟩ failingApi).trace =
      [.createComment (envTemplate [] "OWNER") (envTemplate [] "REPO") 7
         (getMessage ⟨0, by decide⟩ (envTemplate [] "AUTHOR") (envTemplate [] "REPO")
           (parseIntJS (envLookup [] "PR_COUNT"))),
       .setFailed ("Error creating comment: " ++ "Resource not accessible")] := by
  have h := claim_C4_steps_catch_and_set_failed [] 7 ⟨0, by decide⟩ failingApi
    "API rate limit exceeded" "Resource not accessible" rfl rfl
  exact ⟨h.1, h.2.1⟩

/-- C7: a comment is never posted for a pull request that is closed without
being merged: under the job guard github.event.pull_request.merged == true,
an event with merged = false runs no step at all and creates no comment. -/
theorem claim_C7_no_comment_when_not_merged
    (e : WebhookEvent) (rand : Fin 10) (api : GitHubApi)
    (_hclosed : e.action = "closed") (hunmerged : e.pullRequest.merged = false) :
    runWorkflow e rand api = [] ∧
    (runWorkflow e rand api).filter Effect.isCreateComment = [] := by
  have h : runWorkflow e rand api = [] := by
    simp [runWorkflow, hunmerged]
  exact ⟨h, by rw [h]; rfl⟩

theorem claim_C7_witness :
    (WebhookEvent.action ⟨"closed", ⟨3, false, "bob"⟩, ⟨"classiq-library", "Classiq"⟩⟩ = "closed") ∧
    (PullRequestInfo.merged ⟨3, false, "bob"⟩ = false) ∧
    runWorkflow ⟨"closed", ⟨3, false, "bob"⟩, ⟨"classiq-library", "Classiq"⟩⟩
      ⟨2, by decide⟩ failingApi = [] := by
  have h := claim_C7_no_comment_when_not_merged
    ⟨"closed", ⟨3, false, "bob"⟩, ⟨"classiq-library", "Classiq"⟩⟩
    ⟨2, by decide⟩ failingApi rfl rfl
  exact ⟨rfl, rfl, h.1⟩

/-- C2: whenever the workflow runs to completion on a pull_request_target
closed event (job guard satisfied, both script steps succeed), the Comment
step posts exactly one comment, on that same pull request, whose body
mentions the pull request's author by login. -/
theorem claim_C2_one_comment_mentioning_author
    (e : WebhookEvent) (rand : Fin 10) (api : GitHubApi) (items : List SearchItem)
    (hclosed : e.action = "closed") (hmerged : e.pullRequest.merged = true)
    (h1 : api.searchResult (searchQuery (setEnvStep e)) 1000 = .ok items)
    (h2 : ∀ ow rp n b, api.createCommentResult ow rp n b = .ok ()) :
    ∃ body,
      (runWorkflow e rand api).filter Effect.isCreateComment =
        [.createComment e.repository.ownerLogin e.repository.name
           e.pullRequest.number body] ∧
      mentionsAuthor body e.pullRequest.authorLogin := by
  have hc : (e.action == "closed" && e.pullRequest.merged) = true := by
    rw [hclosed, hmerged]; rfl
  refine ⟨getMessage rand e.pullRequest.authorLogin e.repository.name
    (parseIntJS (some (toString (items.filter (fun pr => pr.mergedAt.isSome)).length))),
    ?_, getMessage_mentions rand e.pullRequest.authorLogin e.repository.name _⟩
  simp only [runWorkflow, hc, if_true, commentJob, countMergedPullRequestsStep]
  rw [h1]
  simp only [commentOnMergedPullRequestStep]
  rw [h2]
  rfl

theorem claim_C2_witness :
    ∃ body,
      (runWorkflow sampleEventC1 ⟨0, by decide⟩ sampleApiC1).filter
          Effect.isCreateComment =
        [.createComment "Classiq" "classiq-library" 7 body] ∧
      mentionsAuthor body "alice" :=
  claim_C2_one_comment_mentioning_author sampleEventC1 ⟨0, by decide⟩ sampleApiC1
    sampleItemsC1 rfl rfl rfl (fun _ _ _ _ => rfl)

/-- The counting step never performs an externally mutating call: its only
API call is the read-only search. -/
theorem countStep_no_external_mutation (env : List (String × String))
    (api : GitHubApi) :
    (countMergedPullRequestsStep env api).trace.filter Effect.isExternalMutation = [] := by
  simp only [countMergedPullRequestsStep]
  split <;> rfl

/-- The comment step's externally mutating calls are exactly one
createComment on the context's PR number. -/
theorem commentStep_mutations (env : List (String × String)) (pn : Nat)
    (rand : Fin 10) (api : GitHubApi) :
    ∃ ow rp b,
      (commentOnMergedPullRequestStep env pn rand api).trace.filter
        Effect.isExternalMutation = [.createComment ow rp pn b] := by
  simp only [commentOnMergedPullRequestStep]
  split <;> exact ⟨_, _, _, rfl⟩

/-- C6: the workflow's only externally visible mutation is posting the PR
comment: the permissions block grants only pull-requests: write, the
counting step mutates nothing, and any run of the workflow performs at
most one mutating API call, which is a createComment. -/
theorem claim_C6_only_mutation_is_create_comment :
    workflowPermissions = [("pull-requests", "write")] ∧
    (∀ (env : List (String × String)) (api : GitHubApi),
      (countMergedPullRequestsStep env api).trace.filter Effect.isExternalMutation = []) ∧
    (∀ (e : WebhookEvent) (rand : Fin 10) (api : GitHubApi),
      ((runWorkflow e rand api).filter Effect.isExternalMutation).length ≤ 1 ∧
      ∀ eff ∈ (runWorkflow e rand api).filter Effect.isExternalMutation,
        ∃ ow rp n b, eff = .createComment ow rp n b) := by
  refine ⟨rfl, countStep_no_external_mutation, ?_⟩
  intro e rand api
  simp only [runWorkflow]
  split
  · simp only [commentJob]
    split
    · rw [List.filter_append, countStep_no_external_mutation]
      obtain ⟨ow, rp, b, hb⟩ := commentStep_mutations
        (countMergedPullRequestsStep (setEnvStep e) api).env e.pullRequest.number rand api
      rw [hb]
      refine ⟨by simp, ?_⟩
      intro eff heff
      simp only [List.nil_append, List.mem_singleton] at heff
      exact ⟨ow, rp, e.pullRequest.number, b, heff⟩
    · rw [countStep_no_external_mutation]
      exact ⟨by simp, by intro eff heff; simp at heff⟩
  · exact ⟨by simp, by intro eff heff; simp at heff⟩

theorem claim_C6_witness :
    workflowPermissions = [("pull-requests", "write")] ∧
    ∃ ow rp n b,
      Effect.createComment "Classiq" "classiq-library" 7
          (getMessage ⟨0, by decide⟩ "alice" "classiq-library" (some 2)) =
        .createComment ow rp n b := by
  have h := claim_C6_only_mutation_is_create_comment
  refine ⟨h.1, (h.2.2 sampleEventC1 ⟨0, by decide⟩ sampleApiC1).2 _ ?_⟩
  exact List.Mem.head _

theorem msgCase1_length_pos (e a r : String) : 0 < (msgCase1 e a r).length := by
  unfold msgCase1
  simp only [String.length_append]
  have h : 0 < " **Fantastic work @".length := by decide
  omega

theorem msgCase2_length_pos (e a r : String) : 0 < (msgCase2 e a r).length := by
  unfold msgCase2
  simp only [String.length_append]
  have h : 0 < " **Well done @".length := by decide
  omega

theorem msgCase3_length_pos (e a r : String) : 0 < (msgCase3 e a r).length := by
  unfold msgCase3
  simp only [String.length_append]
  have h : 0 < " **You\x27re on fire, @".length := by decide
  omega

theorem msgCase5_length_pos (e a r : String) : 0 < (msgCase5 e a r).length := by
  unfold msgCase5
  simp only [String.length_append]
  have h : 0 < " **High five, @".length := by decide
  omega

theorem msgCase10_length_pos (e a r : String) : 0 < (msgCase10 e a r).length := by
  unfold msgCase10
  simp only [String.length_append]
  have h : 0 < " **Double digits, @".length := by decide
  omega

theorem msgOver10_length_pos (e a r c : String) : 0 < (msgOver10 e a r c).length := by
  unfold msgOver10
  simp only [String.length_append]
  have h : 0 < " **Incredible, @".length := by decide
  omega

theorem msgDefault_length_pos (e a r c : String) : 0 < (msgDefault e a r c).length := by
  unfold msgDefault
  simp only [String.length_append]
  have h : 0 < " **Great job, @".length := by decide
  omega

/-- C8: getMessage is total and implements an exact milestone mapping:
counts 1, 2, 3, 5, 10 return their dedicated milestone messages, every
count strictly greater than 10 returns the over-10 message, and every
other input — 0, 4, 6 through 9, negatives, and NaN (what parseInt yields
for PR_COUNT when the counting step exported nothing) — returns the
generic congratulation, always producing a non-empty body. -/
theorem claim_C8_getMessage_milestone_mapping (rand : Fin 10) (author repo : String) :
    getMessage rand author repo (some 1) = msgCase1 (getRandomEmoji rand) author repo ∧
    getMessage rand author repo (some 2) = msgCase2 (getRandomEmoji rand) author repo ∧
    getMessage rand author repo (some 3) = msgCase3 (getRandomEmoji rand) author repo ∧
    getMessage rand author repo (some 5) = msgCase5 (getRandomEmoji rand) author repo ∧
    getMessage rand author repo (some 10) = msgCase10 (getRandomEmoji rand) author repo ∧
    (∀ n : Int, 10 < n →
      getMessage rand author repo (some n) =
        msgOver10 (getRandomEmoji rand) author repo (toString n)) ∧
    getMessage rand author repo none = msgDefault (getRandomEmoji rand) author repo "NaN" ∧
    (∀ n : Int, n ≠ 1 → n ≠ 2 → n ≠ 3 → n ≠ 5 → n ≠ 10 → n ≤ 10 →
      getMessage rand author repo (some n) =
        msgDefault (getRandomEmoji rand) author repo (toString n)) ∧
    (∀ count : Option Int, 0 < (getMessage rand author repo count).length) := by
  refine ⟨rfl, rfl, rfl, rfl, rfl, ?_, rfl, ?_, ?_⟩
  · intro n hn
    have e1 : (n == (1 : Int)) = false := by simp; omega
    have e2 : (n == (2 : Int)) = false := by simp; omega
    have e3 : (n == (3 : Int)) = false := by simp; omega
    have e5 : (n == (5 : Int)) = false := by simp; omega
    have e10 : (n == (10 : Int)) = false := by simp; omega
    simp [getMessage, jsEqNum, jsGtNum, jsNumToString, e1, e2, e3, e5, e10, hn]
  · intro n h1 h2 h3 h5 h10 hle
    have e1 : (n == (1 : Int)) = false := by simp [h1]
    have e2 : (n == (2 : Int)) = false := by simp [h2]
    have e3 : (n == (3 : Int)) = false := by simp [h3]
    have e5 : (n == (5 : Int)) = false := by simp [h5]
    have e10 : (n == (10 : Int)) = false := by simp [h10]
    have eg : ¬ (10 : Int) < n := by omega
    simp [getMessage, jsEqNum, jsGtNum, jsNumToString, e1, e2, e3, e5, e10, eg]
  · intro count
    unfold getMessage
    split
    · exact msgCase1_length_pos _ _ _
    split
    · exact msgCase2_length_pos _ _ _
    split
    · exact msgCase3_length_pos _ _ _
    split
    · exact msgCase5_length_pos _ _ _
    split
    · exact msgCase10_length_pos _ _ _
    split
    · exact msgOver10_length_pos _ _ _ _
    · exact msgDefault_length_pos _ _ _ _

theorem claim_C8_witness :
    getMessage ⟨0, by decide⟩ "alice" "classiq-library" (some 11) =
      msgOver10 (getRandomEmoji ⟨0, by decide⟩) "alice" "classiq-library" "11" ∧
    getMessage ⟨0, by decide⟩ "alice" "classiq-library" (some 4) =
      msgDefault (getRandomEmoji ⟨0, by decide⟩) "alice" "classiq-library" "4" ∧
    getMessage ⟨0, by decide⟩ "alice" "classiq-library" none =
      msgDefault (getRandomEmoji ⟨0, by decide⟩) "alice" "classiq-library" "NaN" := by
  have h := claim_C8_getMessage_milestone_mapping ⟨0, by decide⟩ "alice" "classiq-library"
  exact ⟨h.2.2.2.2.2.1 11 (by decide),
         h.2.2.2.2.2.2.2.1 4 (by decide) (by decide) (by decide) (by decide)
           (by decide) (by decide),
         h.2.2.2.2.2.2.1⟩

/- ===============================================================
   Part 2: the pre-commit configuration
   .pre-commit-config.yaml
   =============================================================== -/

/-- The regular-expression fragment pre-commit's `files` keys use here:
a character class, concatenation, alternation, one-or-more repetition of
a character class, and the empty word (only to terminate literals).
`rmatch` is anchored at both ends, matching the ^...$ of the patterns. -/
inductive RE where
  | eps
  | cls (p : Char → Bool)
  | seq (r1 r2 : RE)
  | alt (r1 r2 : RE)
  | plusCls (p : Char → Bool)

/-- Suffixes remaining after one-or-more characters of the class `p`. -/
def plusRest (p : Char → Bool) : List Char → List (List Char)
  | [] => []
  | c :: s => if p c then s :: plusRest p s else []

/-- All suffixes remaining after the pattern matched a prefix. -/
def matchRest : RE → List Char → List (List Char)
  | .eps, s => [s]
  | .cls p, s =>
    match s with
    | [] => []
    | c :: s1 => if p c then [s1] else []
  | .seq r1 r2, s => (matchRest r1 s).flatMap (matchRest r2)
  | .alt r1 r2, s => matchRest r1 s ++ matchRest r2 s
  | .plusCls p, s => plusRest p s

/-- Anchored match of the whole string: some prefix-match consumes all of
it, leaving the empty remainder. -/
def rmatch (r : RE) (s : String) : Bool :=
  decide ([] ∈ matchRest r s.data)

/-- A single literal character. -/
def litChar (c : Char) : RE := .cls (fun x => x == c)

/-- A literal character sequence. -/
def litList : List Char → RE
  | [] => .eps
  | c :: rest => .seq (litChar c) (litList rest)

/-- A literal string. -/
def lit (s : String) : RE := litList s.data

/-- The regex class \S: any non-whitespace character. -/
def nonspace : Char → Bool := fun c => !c.isWhitespace

/-- files key of notebook-pre-commit and auto-add-tests: ^\S+\.ipynb$ -/
def ipynbPattern : RE := .seq (.plusCls nonspace) (lit ".ipynb")

/-- files key of qmod-pre-commit: ^\S+\.qmod$ -/
def qmodPattern : RE := .seq (.plusCls nonspace) (lit ".qmod")

/-- files key of clean-demo-timeouts: ^\S+\.(qmod|ipynb|yaml)$ -/
def qmodIpynbYamlPattern : RE :=
  .seq (.plusCls nonspace)
    (.seq (litChar '.') (.alt (lit "qmod") (.alt (lit "ipynb") (lit "yaml"))))

/-- One local pre-commit hook entry. -/
structure PreCommitHook where
  id : String
  name : String
  description : String
  entry : String
  language : String
  files : RE
  requireSerial : Bool

/-- The hooks of the `repo: local` block of .pre-commit-config.yaml. -/
def localHooks : List PreCommitHook :=
  [{ id := "notebook-pre-commit",
     name := "Notebook pre commit collection",
     description := "Ensure notebooks conventions",
     entry := ".internal/pre_commit_tools/notebook_pre_commit_collection.py",
     language := "python",
     files := ipynbPattern,
     requireSerial := true },
   { id := "qmod-pre-commit",
     name := "Qmod pre commit collection",
     description := "Ensure qmods conventions",
     entry := ".internal/pre_commit_tools/qmod_pre_commit_collection.py",
     language := "python",
     files := qmodPattern,
     requireSerial := true },
   { id := "clean-demo-timeouts",
     name := "Clean demo timeouts",
     description := "Remove unexisting entries and verify unique keys",
     entry := ".internal/pre_commit_tools/clean_timeouts.py",
     language := "python",
     files := qmodIpynbYamlPattern,
     requireSerial := true },
   { id := "auto-add-tests",
     name := "Auto add test",
     description := "Automatically adding a test to new notebooks",
     entry := ".internal/pre_commit_tools/auto_add_tests.py",
     language := "python",
     files := ipynbPattern,
     requireSerial := true }]

theorem plusRest_suffix (p : Char → Bool) :
    ∀ (s t : List Char), t ∈ plusRest p s → t <:+ s := by
  intro s
  induction s with
  | nil => intro t ht; simp [plusRest] at ht
  | cons c s1 ih =>
    intro t ht
    simp only [plusRest] at ht
    by_cases hc : p c
    · rw [if_pos hc] at ht
      rcases List.mem_cons.mp ht with h | h
      · exact h ▸ List.suffix_cons c s1
      · exact (ih t h).trans (List.suffix_cons c s1)
    · rw [if_neg hc] at ht
      simp at ht

theorem matchRest_suffix :
    ∀ (r : RE) (s t : List Char), t ∈ matchRest r s → t <:+ s := by
  intro r
  induction r with
  | eps =>
    intro s t ht
    simp only [matchRest, List.mem_singleton] at ht
    exact ht ▸ List.suffix_refl s
  | cls p =>
    intro s t ht
    match s with
    | [] => simp [matchRest] at ht
    | c :: s1 =>
      simp only [matchRest] at ht
      by_cases hc : p c
      · rw [if_pos hc] at ht
        rcases List.mem_singleton.mp ht with h
        exact h ▸ List.suffix_cons c s1
      · rw [if_neg hc] at ht
        simp at ht
  | seq r1 r2 ih1 ih2 =>
    intro s t ht
    simp only [matchRest, List.mem_flatMap] at ht
    obtain ⟨u, hu, htu⟩ := ht
    exact (ih2 u t htu).trans (ih1 s u hu)
  | alt r1 r2 ih1 ih2 =>
    intro s t ht
    simp only [matchRest, List.mem_append] at ht
    rcases ht with h | h
    · exact ih1 s t h
    · exact ih2 s t h
  | plusCls p =>
    intro s t ht
    exact plusRest_suffix p s t ht

theorem litList_empty_rest :
    ∀ (cs s : List Char), [] ∈ matchRest (litList cs) s → s = cs := by
  intro cs
  induction cs with
  | nil =>
    intro s hs
    simp only [litList, matchRest, List.mem_singleton] at hs
    exact hs.symm
  | cons c rest ih =>
    intro s hs
    simp only [litList, matchRest, List.mem_flatMap] at hs
    obtain ⟨u, hu, hrest⟩ := hs
    match s with
    | [] => simp [litChar, matchRest] at hu
    | d :: s1 =>
      simp only [litChar, matchRest] at hu
      by_cases hd : d == c
      · rw [if_pos hd] at hu
        rcases List.mem_singleton.mp hu with h
        have hd2 : d = c := by simpa using hd
        have hs1 : s1 = rest := by rw [← h]; exact ih u hrest
        rw [hd2, hs1]
      · rw [if_neg hd] at hu
        simp at hu

/-- A whole-string match of \S+ followed by a literal forces the string to
end with that literal. -/
theorem seqLit_suffix (p : Char → Bool) (ext : String) (s : String)
    (h : rmatch (.seq (.plusCls p) (lit ext)) s = true) :
    ext.data <:+ s.data := by
  have hm : [] ∈ matchRest (.seq (.plusCls p) (lit ext)) s.data :=
    of_decide_eq_true h
  simp only [matchRest, List.mem_flatMap] at hm
  obtain ⟨u, hu, hlit⟩ := hm
  have hext : u = ext.data := litList_empty_rest ext.data u hlit
  exact hext ▸ matchRest_suffix (.plusCls p) s.data u hu

/-- A whole-string match of ^\S+\.(qmod|ipynb|yaml)$ forces one of the
three dotted extensions as a suffix. -/
theorem multiAlt_suffix (s : String)
    (h : rmatch qmodIpynbYamlPattern s = true) :
    ".qmod".data <:+ s.data ∨ ".ipynb".data <:+ s.data ∨ ".yaml".data <:+ s.data := by
  have hm : [] ∈ matchRest qmodIpynbYamlPattern s.data := of_decide_eq_true h
  simp only [qmodIpynbYamlPattern, matchRest, List.mem_flatMap] at hm
  obtain ⟨u1, hu1, hm2⟩ := hm
  obtain ⟨u2, hu2, hm3⟩ := hm2
  have hsuf1 : u1 <:+ s.data := matchRest_suffix (.plusCls nonspace) s.data u1 hu1
  match hu1d : u1 with
  | [] => simp [litChar, matchRest] at hu2
  | d :: u1t =>
    simp only [litChar, matchRest] at hu2
    by_cases hd : d == '.'
    · rw [if_pos hd] at hu2
      have hu2t : u2 = u1t := List.mem_singleton.mp hu2
      have hdd : d = '.' := by simpa using hd
      rcases List.mem_append.mp hm3 with hq | hm4
      · left
        have : u2 = "qmod".data := litList_empty_rest "qmod".data u2 hq
        rw [hdd, ← hu2t, this] at hsuf1
        exact hsuf1
      rcases List.mem_append.mp hm4 with hi | hy
      · right; left
        have : u2 = "ipynb".data := litList_empty_rest "ipynb".data u2 hi
        rw [hdd, ← hu2t, this] at hsuf1
        exact hsuf1
      · right; right
        have : u2 = "yaml".data := litList_empty_rest "yaml".data u2 hy
        rw [hdd, ← hu2t, this] at hsuf1
        exact hsuf1
    · rw [if_neg hd] at hu2
      simp at hu2

/-- C3: the pre-commit configuration defines exactly four local hooks —
notebook-pre-commit and auto-add-tests on ^\S+\.ipynb$, qmod-pre-commit on
^\S+\.qmod$, clean-demo-timeouts on ^\S+\.(qmod|ipynb|yaml)$ — and every
path that triggers any local hook ends with .ipynb, .qmod, or .yaml. -/
theorem claim_C3_four_local_hooks_extensions :
    localHooks.length = 4 ∧
    localHooks.map PreCommitHook.id =
      ["notebook-pre-commit", "qmod-pre-commit", "clean-demo-timeouts",
       "auto-add-tests"] ∧
    localHooks.map PreCommitHook.files =
      [ipynbPattern, qmodPattern, qmodIpynbYamlPattern, ipynbPattern] ∧
    ∀ hk ∈ localHooks, ∀ s : String, rmatch hk.files s = true →
      ".ipynb".data <:+ s.data ∨ ".qmod".data <:+ s.data ∨
        ".yaml".data <:+ s.data := by
  refine ⟨rfl, rfl, rfl, ?_⟩
  intro hk hmem s hs
  simp only [localHooks, List.mem_cons, List.not_mem_nil, or_false] at hmem
  rcases hmem with h | h | h | h <;> subst h
  · exact Or.inl (seqLit_suffix nonspace ".ipynb" s hs)
  · exact Or.inr (Or.inl (seqLit_suffix nonspace ".qmod" s hs))
  · rcases multiAlt_suffix s hs with h | h | h
    · exact Or.inr (Or.inl h)
    · exact Or.inl h
    · exact Or.inr (Or.inr h)
  · exact Or.inl (seqLit_suffix nonspace ".ipynb" s hs)

theorem claim_C3_witness :
    rmatch ipynbPattern "demo.ipynb" = true ∧
    (".ipynb".data <:+ "demo.ipynb".data ∨ ".qmod".data <:+ "demo.ipynb".data ∨
      ".yaml".data <:+ "demo.ipynb".data) := by
  have h := claim_C3_four_local_hooks_extensions
  exact ⟨by decide, h.2.2.2 _ (List.Mem.head _) "demo.ipynb" (by decide)⟩

/-- C9: every local hook's files regex is ^\S+ followed by the extension
part, so the path "my notebook.ipynb" — which ends in .ipynb but contains
a whitespace character — triggers no local hook at all. -/
theorem claim_C9_whitespace_path_triggers_nothing :
    localHooks.map PreCommitHook.files =
      [ipynbPattern, qmodPattern, qmodIpynbYamlPattern, ipynbPattern] ∧
    ipynbPattern = .seq (.plusCls nonspace) (lit ".ipynb") ∧
    qmodPattern = .seq (.plusCls nonspace) (lit ".qmod") ∧
    qmodIpynbYamlPattern =
      .seq (.plusCls nonspace)
        (.seq (litChar '.')
          (.alt (lit "qmod") (.alt (lit "ipynb") (lit "yaml")))) ∧
    ".ipynb".data.isSuffixOf "my notebook.ipynb".data = true ∧
    "my notebook.ipynb".data.contains ' ' = true ∧
    rmatch ipynbPattern "my notebook.ipynb" = false ∧
    rmatch qmodPattern "my notebook.ipynb" = false ∧
    rmatch qmodIpynbYamlPattern "my notebook.ipynb" = false :=
  ⟨rfl, rfl, rfl, rfl, by decide, by decide, by decide, by decide, by decide⟩

/- ===============================================================
   Part 3: the Qmod model files
   set_cover.qmod, qpe_for_matrix.qmod, and the two unnamed qmod
   sources (an HHL/QSCT model and a discrete-quantum-walk model)
   =============================================================== -/

/-- Qmod syntax nodes, restricted to the forms the four files use.
Statements and call arguments share one syntax-tree type so that the
occurrence scan is a single structural recursion.  Classical expressions
(sizes, angles, literals) are carried as display strings: they mention no
quantum variable except where a node has an explicit mentions list.  A
subscripted access such as x[pos] counts as an occurrence of x; the
compile-time attribute v.size in an allocate size argument is classical
and is not a quantum occurrence.

Statement nodes: varDecl, allocate, prepareState, prepareAmplitudes,
callq, phaseStmt, inplaceArith, ifStmt, repeatStmt, powerStmt,
controlStmt, withinApply, rebind.
Argument nodes (children of callq): argClassical, argQuantum, argLambda,
argArray. -/
inductive QNode where
  | varDecl (v : String) (ty : String)
  | allocate (sizeArgs : List String) (target : String)
  | prepareState (numProbs : Nat) (bound : String) (target : String)
  | prepareAmplitudes (numAmps : Nat) (bound : String) (target : String)
  | callq (fname : String) (args : List QNode)
  | phaseStmt (mentions : List String) (angle : String)
  | inplaceArith (target : String) (mentions : List String) (expr : String)
  | ifStmt (cond : String) (thenBranch elseBranch : List QNode)
  | repeatStmt (count : String) (body : List QNode)
  | powerStmt (count : String) (body : List QNode)
  | controlStmt (condMentions : List String) (body : List QNode)
  | withinApply (compute : List QNode) (action : List QNode)
  | rebind (src : String) (dsts : List String)
  | argClassical (desc : String)
  | argQuantum (v : String)
  | argLambda (params : List String) (body : List QNode)
  | argArray (elems : List QNode)

/-- A parameter of a qfunc declaration; isOutput marks the output modifier. -/
structure QParam where
  name : String
  isOutput : Bool
  ty : String

/-- A top-level qfunc declaration. -/
structure QFunc where
  name : String
  params : List QParam
  body : List QNode

/-- A top-level qstruct declaration. -/
structure QStructDecl where
  name : String
  fields : List (String × String)

/-- A .qmod source file: declarations plus any trailing cscope execution
directives. -/
structure QmodFile where
  path : String
  qstructs : List QStructDecl
  qfuncs : List QFunc
  cscopes : List String

/-- How a variable occurrence relates to initialization. -/
inductive OccKind where
  | declare
  | use
  | initAllocate
  | initPrepare
  | initOutputArg
  | initRebind
deriving DecidableEq, BEq

/-- One variable occurrence in a statement scan. -/
structure Occ where
  var : String
  kind : OccKind
deriving DecidableEq, BEq

/-- Output-parameter positions of a declared qfunc. -/
def qfuncSig (f : QFunc) : String × List Nat :=
  (f.name, (f.params.enum).filterMap
    (fun p => if p.2.isOutput then some p.1 else none))

/-- Library functions the files call; none of them declares an output
parameter (allocate and the prepare_* family are dedicated statement
forms above; inplace_prepare_state and qpe_flexible act on
already-initialized arguments). -/
def builtinSigs : List (String × List Nat) :=
  [("hadamard_transform", []), ("apply_to_all", []), ("RX", []),
   ("unitary", []), ("suzuki_trotter", []), ("qpe_flexible", []),
   ("X", []), ("grover_diffuser", []), ("inplace_prepare_state", []),
   ("qst_type2", []), ("qct_type2", [])]

/-- Signature table of a file: its own qfuncs plus the builtins. -/
def fileSigs (f : QmodFile) : List (String × List Nat) :=
  f.qfuncs.map qfuncSig ++ builtinSigs

/-- Output positions of a function by name; a name not in the table (for
example a qfunc-typed parameter) declares no outputs. -/
def outputPositions (sigs : List (String × List Nat)) (f : String) : List Nat :=
  ((sigs.find? (fun p => p.1 == f)).map (fun p => p.2)).getD []

/-- Source-order scan of the variable occurrences of a syntax node.
A quantum argument at an output position of the callee is an initializing
occurrence; occurrences inside a lambda body are charged to the enclosing
call, minus the lambda's own parameters; elements of a lambda array are
not positional arguments of the callee. -/
def occsNode (sigs : List (String × List Nat)) : QNode → List Occ
  | .varDecl v _ => [⟨v, .declare⟩]
  | .allocate _ t => [⟨t, .initAllocate⟩]
  | .prepareState _ _ t => [⟨t, .initPrepare⟩]
  | .prepareAmplitudes _ _ t => [⟨t, .initPrepare⟩]
  | .callq f args => occsArgs (outputPositions sigs f) 0 args
  | .phaseStmt ms _ => ms.map (fun v => ⟨v, .use⟩)
  | .inplaceArith t ms _ => ⟨t, .use⟩ :: ms.map (fun v => ⟨v, .use⟩)
  | .ifStmt _ tb eb => occsList tb ++ occsList eb
  | .repeatStmt _ b => occsList b
  | .powerStmt _ b => occsList b
  | .controlStmt ms b => ms.map (fun v => ⟨v, .use⟩) ++ occsList b
  | .withinApply w a => occsList w ++ occsList a
  | .rebind src dsts => ⟨src, .use⟩ :: dsts.map (fun v => ⟨v, .initRebind⟩)
  | .argClassical _ => []
  | .argQuantum v => [⟨v, .use⟩]
  | .argLambda ps b => (occsList b).filter (fun o => !(ps.contains o.var))
  | .argArray elems => occsList elems
where
  occsList : List QNode → List Occ
    | [] => []
    | n :: rest => occsNode sigs n ++ occsList rest
  occsArgs (outs : List Nat) (i : Nat) : List QNode → List Occ
    | [] => []
    | .argQuantum v :: rest =>
        ⟨v, if outs.contains i then .initOutputArg else .use⟩ ::
          occsArgs outs (i + 1) rest
    | n :: rest => occsNode sigs n ++ occsArgs outs (i + 1) rest

/-- All occurrences of a file's main body, in source order. -/
def mainOccs (f : QmodFile) : List Occ :=
  match f.qfuncs.find? (fun g => g.name == "main") with
  | some m => occsNode.occsList (fileSigs f) m.body
  | none => []

/-- The quantum variables main must initialize: its output parameters and
its locally declared variables. -/
def mainOwnedVars (f : QmodFile) : List String :=
  match f.qfuncs.find? (fun g => g.name == "main") with
  | some m =>
      m.params.filterMap (fun p => if p.isOutput then some p.name else none) ++
        (occsNode.occsList (fileSigs f) m.body).filterMap
          (fun o => if o.kind == .declare then some o.var else none)
  | none => []

/-- The kind of the first non-declaration occurrence of a variable. -/
def firstOccKind (occs : List Occ) (v : String) : Option OccKind :=
  ((occs.filter (fun o => o.kind != .declare && o.var == v)).head?).map
    (fun o => o.kind)

/-- The initialization forms the claim text lists: allocate, the
prepare_* family, and being passed to an output parameter. -/
def strictInitKinds : List OccKind := [.initAllocate, .initPrepare, .initOutputArg]

/-- The initialization forms the code actually uses: the strict ones plus
the variable-rebind statement (src -> dsts). -/
def amendedInitKinds : List OccKind :=
  [.initAllocate, .initPrepare, .initOutputArg, .initRebind]

/-- Each owned quantum variable of main is, at its first occurrence,
initialized by one of the given forms (a variable with no occurrence
beyond its declaration is vacuously fine). -/
def mainInitialized (kinds : List OccKind) (f : QmodFile) : Bool :=
  (mainOwnedVars f).all (fun v =>
    match firstOccKind (mainOccs f) v with
    | none => true
    | some k => kinds.contains k)

/-- The file declares a top-level qfunc named main. -/
def hasMainQfunc (f : QmodFile) : Bool :=
  f.qfuncs.any (fun g => g.name == "main")

/-- C5's property as the claim states it: main exists, every owned quantum
variable is first initialized by one of the three listed forms, and the
file is declarative apart from at most one cscope execution directive. -/
def qmodClaimStrict (f : QmodFile) : Bool :=
  hasMainQfunc f && mainInitialized strictInitKinds f &&
    decide (f.cscopes.length ≤ 1)

/-- C5's property with the rebind statement admitted as an initializer. -/
def qmodClaimAmended (f : QmodFile) : Bool :=
  hasMainQfunc f && mainInitialized amendedInitKinds f &&
    decide (f.cscopes.length ≤ 1)

/-- applications/optimization/set_cover/set_cover.qmod. -/
def setCoverFile : QmodFile :=
  { path := "applications/optimization/set_cover/set_cover.qmod",
    qstructs :=
      [⟨"QAOAVars",
        [("x", "qbit[8]"),
         ("independent_rule_1_slack_var", "qbit[1]"),
         ("independent_rule_2_slack_var", "qbit[2]"),
         ("independent_rule_3_slack_var", "qbit[2]"),
         ("independent_rule_4_slack_var", "qbit[2]"),
         ("independent_rule_5_slack_var", "qbit[1]"),
         ("independent_rule_6_slack_var", "qbit[1]"),
         ("independent_rule_7_slack_var", "qbit[2]"),
         ("independent_rule_8_slack_var", "qbit[2]"),
         ("independent_rule_9_slack_var", "qbit[1]"),
         ("independent_rule_10_slack_var", "qbit[1]")]⟩],
    qfuncs :=
      [{ name := "main",
         params := [⟨"params", false, "real[6]"⟩, ⟨"v", true, "QAOAVars"⟩],
         body :=
           [.allocate ["v.size"] "v",
            .callq "hadamard_transform" [.argQuantum "v"],
            .repeatStmt "3"
              -- the phase objective reads v.x[0..7] and the slack fields of v
              [.phaseStmt ["v"] "params[i]",
               .callq "apply_to_all"
                 [.argLambda ["q"]
                    [.callq "RX" [.argClassical "params[3 + i]", .argQuantum "q"]],
                  .argQuantum "v"]]] }],
    cscopes := [] }

/-- algorithms/qpe/qpe_for_matrix/qpe_for_matrix.qmod. -/
def qpeForMatrixFile : QmodFile :=
  { path := "algorithms/qpe/qpe_for_matrix/qpe_for_matrix.qmod",
    qstructs := [],
    qfuncs :=
      [{ name := "unitary_with_power_logic",
         params := [⟨"pw", false, "int"⟩, ⟨"matrix", false, "real[][]"⟩,
                    ⟨"target", false, "qbit[]"⟩],
         body :=
           [.powerStmt "pw"
              [.callq "unitary" [.argClassical "matrix", .argQuantum "target"]]] },
       { name := "suzuki_trotter1_with_power_logic",
         params := [⟨"hamiltonian", false, "PauliTerm[]"⟩, ⟨"pw", false, "int"⟩,
                    ⟨"r0", false, "int"⟩, ⟨"reps_scaling_factor", false, "real"⟩,
                    ⟨"evolution_coefficient", false, "real"⟩,
                    ⟨"target", false, "qbit[]"⟩],
         body :=
           [.callq "suzuki_trotter"
              [.argClassical "hamiltonian",
               .argClassical "evolution_coefficient * pw",
               .argClassical "1",
               .argClassical "r0 * ceiling(reps_scaling_factor ** log(pw, 2))",
               .argQuantum "target"]] },
       { name := "main",
         params := [⟨"phase_result", true, "qnum<8, False, 8>"⟩],
         body :=
           [.varDecl "state" "qbit[]",
            .prepareAmplitudes 4 "0.0" "state",
            .allocate ["8", "False", "8"] "phase_result",
            .callq "qpe_flexible"
              [.argLambda ["pw"]
                 [.ifStmt "True"
                    [.callq "unitary_with_power_logic"
                       [.argClassical "pw",
                        .argClassical "4x4 complex matrix literal",
                        .argQuantum "state"]]
                    [.callq "suzuki_trotter1_with_power_logic"
                       [.argClassical "PauliTerm[] literal, 10 terms",
                        .argClassical "pw", .argClassical "2",
                        .argClassical "1.8",
                        .argClassical "-6.283185307179586",
                        .argQuantum "state"]]],
               .argQuantum "phase_result"]] }],
    cscopes := [] }

/-- The unnamed qmod source part_001: a 2D HHL model with quantum sine and
cosine transforms. -/
def hhlQsct2dFile : QmodFile :=
  { path := "unnamed/part_001",
    qstructs := [],
    qfuncs :=
      [{ name := "qsct_2d",
         params := [⟨"xy_variable", false, "qnum[2]"⟩],
         body :=
           -- qst_type2(xy_variable[0]); qct_type2(xy_variable[1])
           [.callq "qst_type2" [.argQuantum "xy_variable"],
            .callq "qct_type2" [.argQuantum "xy_variable"]] },
       { name := "inverse_amplitude_load",
         params := [⟨"prefactor", false, "real"⟩, ⟨"phase", false, "qnum"⟩,
                    ⟨"ind", false, "qbit"⟩],
         body :=
           -- ind *= prefactor / phase
           [.inplaceArith "ind" ["phase"] "prefactor / phase"] },
       { name := "matrix_inversion_HHL",
         params := [⟨"prefactor", false, "real"⟩,
                    ⟨"my_unitary", false, "qfunc (int, qbit[])"⟩,
                    ⟨"state", false, "qbit[]"⟩, ⟨"phase", false, "qnum"⟩,
                    ⟨"indicator", true, "qbit"⟩],
         body :=
           [.allocate ["1"] "indicator",
            .withinApply
              [.callq "qpe_flexible"
                 [.argLambda ["power"]
                    [.callq "my_unitary"
                       [.argClassical "power", .argQuantum "state"]],
                  .argQuantum "phase"]]
              [.callq "inverse_amplitude_load"
                 [.argClassical "prefactor", .argQuantum "phase",
                  .argQuantum "indicator"]]] },
       { name := "powered_hamiltonian_evolution",
         params := [⟨"hamiltonian", false, "PauliTerm[]"⟩,
                    ⟨"scaling", false, "real"⟩, ⟨"p", false, "int"⟩,
                    ⟨"qba", false, "qbit[]"⟩],
         body :=
           [.callq "suzuki_trotter"
              [.argClassical "hamiltonian",
               .argClassical "p * ((-6.28318530718) * scaling)",
               .argClassical "1", .argClassical "1",
               .argQuantum "qba"]] },
       { name := "main",
         params := [⟨"x_variable", true, "qnum<3, False, 0>"⟩,
                    ⟨"y_variable", true, "qnum<3, False, 0>"⟩,
                    ⟨"phase", true, "qnum"⟩, ⟨"indicator", true, "qbit"⟩],
         body :=
           [.varDecl "xy_variable" "qnum<3, False, 0>[2]",
            .prepareAmplitudes 64 "0.0" "xy_variable",
            .allocate ["6"] "phase",
            .withinApply
              [.callq "qsct_2d" [.argQuantum "xy_variable"]]
              [.callq "matrix_inversion_HHL"
                 [.argClassical "0.015625",
                  .argLambda ["p", "target"]
                    [.callq "powered_hamiltonian_evolution"
                       [.argClassical "PauliTerm[] literal, 16 terms",
                        .argClassical "0.101321183642",
                        .argClassical "p", .argQuantum "target"]],
                  .argQuantum "xy_variable", .argQuantum "phase",
                  .argQuantum "indicator"]],
            .rebind "xy_variable" ["x_variable", "y_variable"]] }],
    cscopes := [] }

/-- The unnamed qmod source part_003: a discrete quantum walk model, with
one cscope execution directive. -/
def quantumWalkFile : QmodFile :=
  { path := "unnamed/part_003",
    qstructs := [],
    qfuncs :=
      [{ name := "discrete_quantum_walk",
         params := [⟨"time", false, "int"⟩,
                    ⟨"coin_flip_qfunc", false, "qfunc (qnum)"⟩,
                    ⟨"walks_qfuncs", false, "qfunc[] ()"⟩,
                    ⟨"coin_state", false, "qnum"⟩],
         body :=
           [.powerStmt "time"
              [.callq "coin_flip_qfunc" [.argQuantum "coin_state"],
               .repeatStmt "walks_qfuncs.len"
                 [.controlStmt ["coin_state"]
                    [.callq "walks_qfuncs[i]" []]]]] },
       { name := "moving_one_hamming_dist",
         params := [⟨"pos", false, "int"⟩, ⟨"x", false, "qbit[]"⟩],
         body := [.callq "X" [.argQuantum "x"]] },
       { name := "main",
         params := [⟨"t", false, "int"⟩, ⟨"x", true, "qbit[]"⟩],
         body :=
           [.allocate ["4"] "x",
            .varDecl "coin" "qbit[]",
            .prepareState 4 "0.0" "coin",
            .callq "discrete_quantum_walk"
              [.argClassical "t",
               .argLambda ["coin"]
                 [.callq "grover_diffuser"
                    [.argLambda ["coin"]
                       [.callq "inplace_prepare_state"
                          [.argClassical "[0.25, 0.25, 0.25, 0.25]",
                           .argClassical "0.0", .argQuantum "coin"]],
                     .argQuantum "coin"]],
               .argArray
                 [.argLambda [] [.callq "moving_one_hamming_dist"
                    [.argClassical "0", .argQuantum "x"]],
                  .argLambda [] [.callq "moving_one_hamming_dist"
                    [.argClassical "1", .argQuantum "x"]],
                  .argLambda [] [.callq "moving_one_hamming_dist"
                    [.argClassical "2", .argQuantum "x"]],
                  .argLambda [] [.callq "moving_one_hamming_dist"
                    [.argClassical "3", .argQuantum "x"]]],
               .argQuantum "coin"]] }],
    cscopes := ["save(\x7b\x27run\x27: sample(\x7b\x27t\x27: 4\x7d)\x7d)"] }

/-- The .qmod sources of the repository. -/
def qmodFiles : List QmodFile :=
  [setCoverFile, qpeForMatrixFile, hhlQsct2dFile, quantumWalkFile]

/-- C5 counterexample: in the main of the unnamed HHL/QSCT qmod source,
the output variables x_variable and y_variable are used, and their only
occurrence is the rebind statement xy_variable -> (x_variable,
y_variable), which is none of the three initialization forms the claim
lists (allocate, prepare_state/prepare_amplitudes, output parameter of a
called function) — so the claim as stated is false on that file. -/
theorem claim_C5_counterexample :
    qmodClaimStrict hhlQsct2dFile = false ∧
    hasMainQfunc hhlQsct2dFile = true ∧
    decide (hhlQsct2dFile.cscopes.length ≤ 1) = true ∧
    firstOccKind (mainOccs hhlQsct2dFile) "x_variable" = some .initRebind ∧
    firstOccKind (mainOccs hhlQsct2dFile) "y_variable" = some .initRebind ∧
    mainInitialized strictInitKinds hhlQsct2dFile = false ∧
    mainInitialized amendedInitKinds hhlQsct2dFile = true := by
  refine ⟨?_, ?_, ?_, ?_, ?_, ?_, ?_⟩ <;> decide

/-- C5 (amended): every .qmod source file of the repository is a
self-contained declarative model: it defines a top-level qfunc main, every
quantum variable owned by main (output parameters and locals) is, at its
first occurrence, initialized by allocate, prepare_state/
prepare_amplitudes, a function declaring it output, or the variable-rebind
statement ->, and the file contains nothing besides declarations and at
most one execution directive in a cscope block.  The claim's original list
of initialization forms holds for three of the four files. -/
theorem claim_C5_all_qmod_files_declarative_initialized :
    qmodFiles.all qmodClaimAmended = true ∧
    qmodClaimStrict setCoverFile = true ∧
    qmodClaimStrict qpeForMatrixFile = true ∧
    qmodClaimStrict quantumWalkFile = true := by
  refine ⟨?_, ?_, ?_, ?_⟩ <;> decide
